import Mathlib

/-!
Verification of the session-orchestration and terminal-multiplexing layer of
the sandbox backend (`src/backend/server/src/services/Project.ts`,
`src/backend/server/src/index.ts`, and the `Pty` class), as a shallow
embedding: the mutable fields of the `Project` class become an explicit state
record, external calls (the e2b `Container` handle, the database) become an
environment of oracles, and every observable side effect is recorded in an
explicit action trace.
-/

namespace Sandbox

/-- An e2b sandbox handle (`Container` in `Project.ts`); identified by its
`sandboxId` field. -/
structure Container where
  sandboxId : String
deriving DecidableEq, Repr

/-- Outcomes of the external calls made by the orchestration layer.
`connect` and `create` either return a handle or throw (`Except.error`);
`isRunning` reports the handle's liveness; `getHost` is the port-to-host
mapping; `setTimeoutOk` tells whether a `setTimeout` call on a handle
succeeds or throws. -/
structure Env where
  connect : String → Except String Container
  isRunning : Container → Bool
  create : String → Except String Container
  getHost : Container → Nat → String
  setTimeoutOk : Container → Bool

/-- Observable side effects of the orchestration layer: calls to the external
sandbox handle, the persistent store write, and process-level terminal
actions. -/
inductive Act where
  | connectCall (id : String)
  | createCall (template : String)
  | dbWrite (projectId : String) (sandboxId : String)
  | setTimeoutCall (sandboxId : String)
  | writeProc (pid : Nat) (data : String)
  | resizeProc (pid : Nat) (cols rows : Nat)
  | closeProc (pid : Nat)
  | stopWatching
deriving DecidableEq, Repr

/-- Modelled from the spec: the Terminal Multiplexer (`TerminalManager`),
whose source is not under `src/` (only its call sites in `Project.ts` are).
Per §4.3 it owns a registry of active process sessions keyed by a
caller-chosen logical id; `sendTerminalData`/`closeTerminal` on an unknown id
are no-ops, `resizeTerminal` resizes the active terminal(s), and
`closeAllTerminals` closes every registered session and clears the
registry. Process sessions are identified by a process handle (`Nat`). -/
structure TerminalManager where
  container : Container
  terminals : List (String × Nat)
deriving DecidableEq, Repr

/-- Modelled from the spec (§4.3): forward bytes to the matching process's
input stream; unknown id → no-op. -/
def TerminalManager.sendTerminalData (tm : TerminalManager) (id : String)
    (data : String) : TerminalManager × List Act :=
  match tm.terminals.find? (fun e => e.1 = id) with
  | some e => (tm, [Act.writeProc e.2 data])
  | none => (tm, [])

/-- Modelled from the spec (§4.3): terminate the process and remove the
registry entry; unknown id → no-op. -/
def TerminalManager.closeTerminal (tm : TerminalManager) (id : String) :
    TerminalManager × List Act :=
  match tm.terminals.find? (fun e => e.1 = id) with
  | some e =>
      ({ tm with terminals := tm.terminals.filter (fun e => ¬ e.1 = id) },
       [Act.closeProc e.2])
  | none => (tm, [])

/-- Modelled from the spec (§4.3 and the event table: "resizes active
terminal(s)"): forward a resize signal to the registered sessions; with no
active terminal this does nothing. -/
def TerminalManager.resizeTerminal (tm : TerminalManager) (cols rows : Nat) :
    TerminalManager × List Act :=
  (tm, tm.terminals.map (fun e => Act.resizeProc e.2 cols rows))

/-- Modelled from the spec (§4.3): close every registered session and clear
the registry. -/
def TerminalManager.closeAllTerminals (tm : TerminalManager) :
    TerminalManager × List Act :=
  ({ tm with terminals := [] }, tm.terminals.map (fun e => Act.closeProc e.2))

/-- The mutable fields of the `Project` class (`Project.ts` lines 45-59):
`fileManager` is modelled by the container the `FileManager` adapter was
constructed with (its internals are out of core scope). -/
structure ProjectState where
  projectId : String
  type : String
  fileManager : Option Container
  terminalManager : Option TerminalManager
  container : Option Container
  containerId : Option String
deriving DecidableEq, Repr

/-- The `Project` constructor (`Project.ts` lines 54-59). -/
def ProjectState.mk0 (projectId type : String) (containerId : Option String) :
    ProjectState :=
  { projectId := projectId, type := type, fileManager := none,
    terminalManager := none, container := none, containerId := containerId }

/-- Template selection in `initialize` (`Project.ts` lines 76-85): the fixed
set of known type tags maps to dedicated `gitwit-` templates, anything else
to `base`. -/
def templateFor (type : String) : String :=
  if type ∈ ["vanillajs", "reactjs", "nextjs", "streamlit", "php"]
  then "gitwit-" ++ type else "base"

/-- The outcome of a run: the (possibly mutated) state, the trace of external
actions in the order they happened, and `some e` when the run threw. -/
structure Outcome where
  state : ProjectState
  trace : List Act
  error : Option String
deriving DecidableEq, Repr

/-- Step 1 of the critical section of `initialize` (`Project.ts` lines
65-71): if a last-known container id exists, `Container.connect` to it and
store the handle; a throw from `connect` is NOT caught and aborts the run,
leaving the fields as they were. -/
def connectPhase (env : Env) (s : ProjectState) : Outcome :=
  match s.containerId with
  | some cid =>
    match env.connect cid with
    | Except.ok c =>
        ⟨{ s with container := some c }, [Act.connectCall cid], none⟩
    | Except.error e => ⟨s, [Act.connectCall cid], some e⟩
  | none => ⟨s, [], none⟩

/-- The guard of `Project.ts` line 74: true iff the session holds a handle
that reports running. -/
def hasRunningContainer (env : Env) (s : ProjectState) : Bool :=
  match s.container with
  | some c => env.isRunning c
  | none => false

/-- The critical section passed to `lockManager.acquireLock` in
`initialize` (`Project.ts` lines 63-99): connect if an id is known, then, if
there is no handle or it is not running, create a new sandbox from the
type-selected template, record its id and write it to the database. A throw
from `create` aborts the run but keeps any mutation the connect step already
made. -/
def criticalSection (env : Env) (s : ProjectState) : Outcome :=
  let o1 := connectPhase env s
  match o1.error with
  | some e => ⟨o1.state, o1.trace, some e⟩
  | none =>
    if hasRunningContainer env o1.state then ⟨o1.state, o1.trace, none⟩
    else
      let tmpl := templateFor o1.state.type
      match env.create tmpl with
      | Except.error e =>
          ⟨o1.state, o1.trace ++ [Act.createCall tmpl], some e⟩
      | Except.ok c =>
          ⟨{ o1.state with container := some c, containerId := some c.sandboxId },
           o1.trace ++ [Act.createCall tmpl,
                        Act.dbWrite o1.state.projectId c.sandboxId],
           none⟩

/-- `Project.initializeProject` (`Project.ts` lines 61-113): run the critical
section under the project's keyed lock; a throw inside it propagates to the
caller. Afterwards, throw "Failed to create container" if no handle is
held, then lazily construct the terminal manager and the file manager. -/
def initializeProject (env : Env) (s : ProjectState) : Outcome :=
  let o := criticalSection env s
  match o.error with
  | some e => ⟨o.state, o.trace, some e⟩
  | none =>
    match o.state.container with
    | none => ⟨o.state, o.trace, some "Failed to create container"⟩
    | some c =>
      let s2 :=
        match o.state.terminalManager with
        | some _ => o.state
        | none =>
          { o.state with
            terminalManager := some { container := c, terminals := [] } }
      let s3 :=
        match s2.fileManager with
        | some _ => s2
        | none => { s2 with fileManager := some c }
      ⟨s3, o.trace, none⟩

/-- `initRuns env s n`: `n` `initialize()` calls against the same Project
session. Modelled from the spec: the `LockManager` source
(`src/backend/server/src/utils/lock`) is not under `src/`; per §4.1 the keyed
mutex serializes same-key critical sections in submission order, so `n`
concurrent `initialize()` calls on one project id are modelled as `n`
sequential runs on the shared state, each observing the side effects of the
previous one. -/
def initRuns (env : Env) : ProjectState → Nat → List Outcome
  | _, 0 => []
  | s, n + 1 =>
    let o := initializeProject env s
    o :: initRuns env o.state n

/-- Number of sandbox-creation calls in a trace. -/
def countCreates (l : List Act) : Nat :=
  (l.filter fun a => match a with
    | Act.createCall _ => true
    | _ => false).length

/-- The database writes recorded in a trace. -/
def dbWrites (l : List Act) : List Act :=
  l.filter fun a => match a with
    | Act.dbWrite _ _ => true
    | _ => false

/-- `handleHeartbeat` (`Project.ts` lines 132-144): for the owning
connection, call `setTimeout` on the container (optional chaining: no call
when the handle is null); a throw is caught and turned into `false`;
everything else returns `true`. Returns the boolean result and the calls
made to the sandbox. -/
def handleHeartbeat (env : Env) (isOwner : Bool) (container : Option Container) :
    Bool × List Act :=
  if isOwner then
    match container with
    | some c =>
        if env.setTimeoutOk c then (true, [Act.setTimeoutCall c.sandboxId])
        else (false, [Act.setTimeoutCall c.sandboxId])
    | none => (true, [])
  else (true, [])

/-- One step of the JavaScript global replace
`inputString.replace(/\x1B\[[0-9;]*m/g, "")` (`Project.ts` line 34), made
structural with a fuel argument (the list length is always enough fuel): at
each position, if `ESC [` followed by a maximal run of digits/semicolons and
then `m` starts here, drop that whole escape sequence; otherwise keep the
character and move on. -/
def stripAnsiGo : Nat → List Char → List Char
  | _, [] => []
  | 0, l => l
  | fuel + 1, c :: l =>
    if c = '\x1B' then
      match l with
      | '[' :: rest =>
        match rest.dropWhile (fun d => d.isDigit || d = ';') with
        | 'm' :: tail => stripAnsiGo fuel tail
        | _ => c :: stripAnsiGo fuel l
      | _ => c :: stripAnsiGo fuel l
    else c :: stripAnsiGo fuel l

/-- ANSI-escape stripping, `Project.ts` line 34. -/
def stripAnsi (l : List Char) : List Char := stripAnsiGo l.length l

/-- The literal part of the regex `/http:\/\/localhost:(\d+)/`
(`Project.ts` line 35). -/
def litLocalhost : List Char := "http://localhost:".toList

/-- Numeric value of a digit string (`parseInt(match[1])`,
`Project.ts` line 37, on the `(\d+)` capture). -/
def digitsVal (ds : List Char) : Nat :=
  ds.foldl (fun n c => 10 * n + (c.toNat - 48)) 0

/-- Does the regex `/http:\/\/localhost:(\d+)/` match at the head of `l`?
Returns the value of the greedy `(\d+)` capture when it does. -/
def matchAt (l : List Char) : Option Nat :=
  if litLocalhost.isPrefixOf l then
    let ds := (l.drop litLocalhost.length).takeWhile Char.isDigit
    if ds.isEmpty then none else some (digitsVal ds)
  else none

/-- Leftmost match of the regex over the cleaned string
(`cleanedString.match(regex)`, `Project.ts` line 36). -/
def findLocalhostPort : List Char → Option Nat
  | [] => none
  | c :: l =>
    match matchAt (c :: l) with
    | some n => some n
    | none => findLocalhostPort l

/-- `extractPortNumber` (`Project.ts` lines 33-38): strip ANSI escapes,
then return the first `http://localhost:(\d+)` port, if any. -/
def extractPortNumber (s : String) : Option Nat :=
  findLocalhostPort (stripAnsi s.toList)

/-- Spec-side predicate: position `l` carries an `http://localhost:<digits>`
occurrence (the literal followed by at least one digit). -/
def localhostAt (l : List Char) : Bool :=
  litLocalhost.isPrefixOf l &&
    !((l.drop litLocalhost.length).takeWhile Char.isDigit).isEmpty

/-- Spec-side predicate: the string contains an `http://localhost:<digits>`
substring. -/
def hasLocalhostURL (l : List Char) : Bool :=
  l.tails.any localhostAt

/-- Events the server pushes to a connection's socket. `terminalResponse`
carries the logical-id field of its payload when the emitter includes one
(`Project.ts` line 256 does; `Pty.send` does not). -/
inductive SockEvent where
  | terminalResponse (id : Option String) (data : String)
  | previewURL (url : String)
deriving DecidableEq, Repr

/-- The id field of an event's payload, when it is a `terminalResponse`. -/
def SockEvent.idTag : SockEvent → Option String
  | SockEvent.terminalResponse i _ => i
  | SockEvent.previewURL _ => none

/-- The preview events in a pushed-event list. -/
def previewEvents (evs : List SockEvent) : List SockEvent :=
  evs.filter fun ev => match ev with
    | SockEvent.previewURL _ => true
    | _ => false

/-- `"https://" + this.container?.getHost(port)` (`Project.ts` line 264):
with a null handle, JavaScript string concatenation yields `"undefined"`
for the host part. -/
def hostOf (env : Env) (container : Option Container) (port : Nat) : String :=
  match container with
  | some c => env.getHost c port
  | none => "undefined"

/-- The output callback `handleCreateTerminal` binds to the terminal it
creates under logical id `id` (`Project.ts` lines 255-267): emit the chunk
as a `terminalResponse` tagged with `id`, then, if a port is extracted and
is truthy (`if (port)` - nonzero), emit a `previewURL` event with the host
resolved through the handle's port-to-host mapping. -/
def terminalCallback (env : Env) (container : Option Container) (id : String)
    (response : String) : List SockEvent :=
  SockEvent.terminalResponse (some id) response ::
    (match extractPortNumber response with
     | some port =>
         if port = 0 then []
         else [SockEvent.previewURL ("https://" ++ hostOf env container port)]
     | none => [])

/-- The `Pty` class (`src/unnamed/part_000`): the constructor receives the
socket and the logical id but stores only the socket and the shell name -
the id is discarded. -/
structure Pty where
  shell : String
deriving DecidableEq, Repr

/-- `new Pty(socket, id)` (`part_000` lines 10-24, non-Windows platform). -/
def Pty.new (_id : String) : Pty := { shell := "bash" }

/-- `Pty.send` (`part_000` lines 29-33): emit a `terminalResponse` whose
payload carries only the data - there is no id field. -/
def Pty.send (_p : Pty) (data : String) : SockEvent :=
  SockEvent.terminalResponse none data

/-- The `createTerminal` handler of the Pty-based server
(`index.ts` lines 104-107): `terminals[id] = new Pty(socket, id)`. -/
def indexCreateTerminal (terminals : List (String × Pty)) (id : String) :
    List (String × Pty) :=
  (id, Pty.new id) :: terminals.filter (fun e => ¬ e.1 = id)

/-- The `terminalData` handler of the Pty-based server (`index.ts` lines
109-120): look the logical id up in the `terminals` map; if absent, log and
return (no write); otherwise write the data to that terminal's process. -/
def indexTerminalData (terminals : List (String × Nat)) (id data : String) :
    List Act :=
  match terminals.find? (fun e => e.1 = id) with
  | some e => [Act.writeProc e.2 data]
  | none => []

/-- `handleResizeTerminal` (`Project.ts` lines 273-275):
`this.terminalManager?.resizeTerminal(dimensions)` - optional chaining, a
null multiplexer means no call at all. -/
def handleResizeTerminal (tm : Option TerminalManager) (cols rows : Nat) :
    Option TerminalManager × List Act :=
  match tm with
  | some t => let r := t.resizeTerminal cols rows; (some r.1, r.2)
  | none => (none, [])

/-- `handleTerminalData` (`Project.ts` lines 278-280):
`this.terminalManager?.sendTerminalData(id, data)`. -/
def handleTerminalData (tm : Option TerminalManager) (id data : String) :
    Option TerminalManager × List Act :=
  match tm with
  | some t => let r := t.sendTerminalData id data; (some r.1, r.2)
  | none => (none, [])

/-- `handleCloseTerminal` (`Project.ts` lines 283-285):
`this.terminalManager?.closeTerminal(id)`. -/
def handleCloseTerminal (tm : Option TerminalManager) (id : String) :
    Option TerminalManager × List Act :=
  match tm with
  | some t => let r := t.closeTerminal id; (some r.1, r.2)
  | none => (none, [])

/-- `Project.disconnect` (`Project.ts` lines 116-125): bulk-close all
terminals through the multiplexer (optional chaining), null the multiplexer,
stop file watching through the file adapter (optional chaining), null the
adapter. The container handle and the last-known id are not touched. -/
def disconnect (s : ProjectState) : ProjectState × List Act :=
  let tmActs :=
    match s.terminalManager with
    | some tm => (tm.closeAllTerminals).2
    | none => []
  let fmActs :=
    match s.fileManager with
    | some _ => [Act.stopWatching]
    | none => []
  ({ s with terminalManager := none, fileManager := none }, tmActs ++ fmActs)

/-! Concrete environments and states used by witnesses and counterexamples. -/

/-- A well-behaved environment: `connect` echoes the requested id back as a
handle, only the freshly created sandbox `sb-new` reports running, creation
always succeeds, and `setTimeout` always throws. -/
def envDemo : Env where
  connect := fun id => Except.ok ⟨id⟩
  isRunning := fun c => c.sandboxId == "sb-new"
  create := fun _ => Except.ok ⟨"sb-new"⟩
  getHost := fun c p => toString p ++ "-" ++ c.sandboxId ++ ".e2b.app"
  setTimeoutOk := fun _ => false

/-- Like `envDemo` but `setTimeout` succeeds. -/
def envOk : Env where
  connect := fun id => Except.ok ⟨id⟩
  isRunning := fun c => c.sandboxId == "sb-new"
  create := fun _ => Except.ok ⟨"sb-new"⟩
  getHost := fun c p => toString p ++ "-" ++ c.sandboxId ++ ".e2b.app"
  setTimeoutOk := fun _ => true

/-- An environment whose `connect` always throws. -/
def envConnectFail : Env where
  connect := fun _ => Except.error "sandbox was not found"
  isRunning := fun _ => true
  create := fun _ => Except.ok ⟨"sb-fresh"⟩
  getHost := fun _ _ => "host"
  setTimeoutOk := fun _ => true

/-- An environment where creation succeeds but the created sandbox does not
report running. -/
def envDeadCreate : Env where
  connect := fun _ => Except.error "unreachable"
  isRunning := fun _ => false
  create := fun _ => Except.ok ⟨"sb-dead"⟩
  getHost := fun _ _ => "host"
  setTimeoutOk := fun _ => true

/-- A session holding a last-known (stale) sandbox id. -/
def sStale : ProjectState := ProjectState.mk0 "proj-1" "reactjs" (some "sb-stale")

/-- A fresh session with no last-known sandbox id. -/
def sFresh : ProjectState := ProjectState.mk0 "proj-2" "python" none

/-- A multiplexer with two registered terminal sessions. -/
def tmDemo : TerminalManager :=
  { container := ⟨"sb-new"⟩, terminals := [("t1", 1), ("t2", 2)] }

/-- A multiplexer with no registered terminal session. -/
def tmEmpty : TerminalManager := { container := ⟨"sb-new"⟩, terminals := [] }

/-- A fully connected session: handle, multiplexer and file adapter set. -/
def sConnected : ProjectState :=
  { projectId := "proj-4", type := "nextjs", fileManager := some ⟨"sb-new"⟩,
    terminalManager := some tmDemo, container := some ⟨"sb-new"⟩,
    containerId := some "sb-new" }

/-! Shared structural lemmas about the embedding. -/

/-- The connect phase never touches the managers, the last-known id, the
project id or the type; its trace is at most one connect call. -/
theorem connectPhase_fields (env : Env) (s : ProjectState) :
    (connectPhase env s).state.terminalManager = s.terminalManager ∧
    (connectPhase env s).state.fileManager = s.fileManager ∧
    (connectPhase env s).state.containerId = s.containerId ∧
    (connectPhase env s).state.projectId = s.projectId ∧
    (connectPhase env s).state.type = s.type := by
  cases h : s.containerId with
  | none => simp [connectPhase, h]
  | some cid =>
    cases hc : env.connect cid with
    | ok c => simp [connectPhase, h, hc]
    | error e => simp [connectPhase, h, hc]

/-- The shape of the connect phase's trace. -/
theorem connectPhase_trace (env : Env) (s : ProjectState) :
    (connectPhase env s).trace = [] ∨
      ∃ cid, s.containerId = some cid ∧
        (connectPhase env s).trace = [Act.connectCall cid] := by
  cases h : s.containerId with
  | none => exact Or.inl (by simp [connectPhase, h])
  | some cid =>
    refine Or.inr ⟨cid, rfl, ?_⟩
    cases hc : env.connect cid with
    | ok c => simp [connectPhase, h, hc]
    | error e => simp [connectPhase, h, hc]

/-- The critical section never touches the managers. -/
theorem criticalSection_managers (env : Env) (s : ProjectState) :
    (criticalSection env s).state.terminalManager = s.terminalManager ∧
    (criticalSection env s).state.fileManager = s.fileManager := by
  obtain ⟨h1, h2, -, -, -⟩ := connectPhase_fields env s
  cases he : (connectPhase env s).error with
  | some e => simp [criticalSection, he, h1, h2]
  | none =>
    cases hr : hasRunningContainer env (connectPhase env s).state with
    | true => simp [criticalSection, he, hr, h1, h2]
    | false =>
      cases hc : env.create (templateFor (connectPhase env s).state.type) with
      | error e => simp [criticalSection, he, hr, hc, h1, h2]
      | ok c => simp [criticalSection, he, hr, hc, h1, h2]

/-- When the critical section completed without error and left a handle,
the rest of `initialize()` only constructs the missing managers: error,
trace, handle, last-known id, project id and type are those of the critical
section, and both managers are present afterwards. -/
theorem initializeProject_ok_fields (env : Env) (s : ProjectState) (c : Container)
    (hc : (criticalSection env s).error = none)
    (hcont : (criticalSection env s).state.container = some c) :
    (initializeProject env s).error = none ∧
    (initializeProject env s).trace = (criticalSection env s).trace ∧
    (initializeProject env s).state.container = (criticalSection env s).state.container ∧
    (initializeProject env s).state.containerId = (criticalSection env s).state.containerId ∧
    (initializeProject env s).state.terminalManager.isSome = true ∧
    (initializeProject env s).state.fileManager.isSome = true ∧
    (initializeProject env s).state.projectId = (criticalSection env s).state.projectId ∧
    (initializeProject env s).state.type = (criticalSection env s).state.type := by
  cases htm : (criticalSection env s).state.terminalManager <;>
    cases hfm : (criticalSection env s).state.fileManager <;>
      simp [initializeProject, hc, hcont, htm, hfm]

/-- A run from a session with no last-known id and no handle, in an
environment whose `create` succeeds: exactly the creation trace, and a
ready state. -/
theorem initializeProject_fresh (env : Env) (s : ProjectState) (c : Container)
    (h0 : s.containerId = none) (h1 : s.container = none)
    (hcreate : env.create (templateFor s.type) = Except.ok c) :
    (initializeProject env s).error = none ∧
    (initializeProject env s).trace =
      [Act.createCall (templateFor s.type), Act.dbWrite s.projectId c.sandboxId] ∧
    (initializeProject env s).state.containerId = some c.sandboxId ∧
    (initializeProject env s).state.terminalManager.isSome = true ∧
    (initializeProject env s).state.fileManager.isSome = true := by
  have hcp : connectPhase env s = ⟨s, [], none⟩ := by simp [connectPhase, h0]
  have hnr : hasRunningContainer env s = false := by
    simp [hasRunningContainer, h1]
  have hcs : criticalSection env s =
      ⟨{ s with container := some c, containerId := some c.sandboxId },
        [Act.createCall (templateFor s.type),
         Act.dbWrite s.projectId c.sandboxId], none⟩ := by
    simp [criticalSection, hcp, hnr, hcreate]
  obtain ⟨e1, e2, e3, e4, e5, e6, -, -⟩ :=
    initializeProject_ok_fields env s c (by rw [hcs]) (by rw [hcs])
  refine ⟨e1, ?_, ?_, e5, e6⟩
  · rw [e2, hcs]
  · rw [e4, hcs]

/-- A run against a session that already holds a last-known id whose handle
connects and reports running, with both managers present, only reconnects:
it performs exactly one connect call, no creation, no database write, and
leaves everything but the handle field unchanged. -/
theorem initializeProject_steady (env : Env) (t : ProjectState) (cid : String)
    (c' : Container)
    (hid : t.containerId = some cid)
    (hconn : env.connect cid = Except.ok c')
    (hrun : env.isRunning c' = true)
    (htm : t.terminalManager.isSome = true)
    (hfm : t.fileManager.isSome = true) :
    initializeProject env t =
      ⟨{ t with container := some c' }, [Act.connectCall cid], none⟩ := by
  have hcp : connectPhase env t =
      ⟨{ t with container := some c' }, [Act.connectCall cid], none⟩ := by
    simp [connectPhase, hid, hconn]
  have hrc : hasRunningContainer env { t with container := some c' } = true := by
    simp [hasRunningContainer, hrun]
  have hcs : criticalSection env t =
      ⟨{ t with container := some c' }, [Act.connectCall cid], none⟩ := by
    simp [criticalSection, hcp, hrc]
  cases htm2 : t.terminalManager with
  | none => rw [htm2] at htm; simp at htm
  | some tmv =>
    cases hfm2 : t.fileManager with
    | none => rw [hfm2] at hfm; simp at hfm
    | some fmv => simp [initializeProject, hcs, htm2, hfm2]

/-- Creation calls distribute over trace concatenation. -/
theorem countCreates_append (l₁ l₂ : List Act) :
    countCreates (l₁ ++ l₂) = countCreates l₁ + countCreates l₂ := by
  simp [countCreates, List.filter_append]

/-- Database writes distribute over trace concatenation. -/
theorem dbWrites_append (l₁ l₂ : List Act) :
    dbWrites (l₁ ++ l₂) = dbWrites l₁ ++ dbWrites l₂ := by
  simp [dbWrites, List.filter_append]

/-- A list of runs each of whose traces is a single connect call contains
no creation call. -/
theorem countCreates_bind_zero (cid : String) (outs : List Outcome)
    (h : ∀ o ∈ outs, o.trace = [Act.connectCall cid]) :
    countCreates (outs.flatMap Outcome.trace) = 0 := by
  induction outs with
  | nil => simp [countCreates]
  | cons a l ih =>
    have ha := h a (by simp)
    have hl : ∀ o ∈ l, o.trace = [Act.connectCall cid] :=
      fun o ho => h o (List.mem_cons_of_mem a ho)
    simp only [List.flatMap_cons]
    rw [countCreates_append, ha, ih hl]
    rfl

/-- In a steady environment (the last-known id connects to a running
handle), every `initialize()` run against a ready session reconnects
without error and without creating. -/
theorem initRuns_steady (env : Env) (cid : String) (c' : Container)
    (hconn : env.connect cid = Except.ok c')
    (hrun : env.isRunning c' = true) :
    ∀ n (t : ProjectState), t.containerId = some cid →
      t.terminalManager.isSome = true → t.fileManager.isSome = true →
      ∀ o ∈ initRuns env t n, o.error = none ∧ o.trace = [Act.connectCall cid] := by
  intro n
  induction n with
  | zero =>
    intro t _ _ _ o ho
    simp [initRuns] at ho
  | succ m ih =>
    intro t h1 h2 h3 o ho
    have hstep := initializeProject_steady env t cid c' h1 hconn hrun h2 h3
    have hlist : initRuns env t (m + 1) =
        initializeProject env t :: initRuns env (initializeProject env t).state m := rfl
    rw [hlist, hstep] at ho
    rcases List.mem_cons.mp ho with rfl | ho2
    · exact ⟨rfl, rfl⟩
    · exact ih { t with container := some c' } h1 h2 h3 o ho2

/-! Claims. -/

/-- C10: a heartbeat from an owner connection made while the session's
sandbox handle is null returns `true` without making any call to the
sandbox (optional chaining skips `setTimeout`), so a heartbeat against an
uninitialized session silently reports success. -/
theorem heartbeat_uninitialized_true (env : Env) :
    handleHeartbeat env true none = (true, []) := rfl

/-- C6: a non-owner heartbeat returns `true` and never invokes the
sandbox's timeout extension; an owner heartbeat whose `setTimeout` throws
is caught and returns `false` (never throws); an owner heartbeat whose
`setTimeout` succeeds returns `true`. -/
theorem heartbeat_owner_gated (env : Env) (c : Container) :
    handleHeartbeat env false (some c) = (true, []) ∧
    handleHeartbeat env false none = (true, []) ∧
    (env.setTimeoutOk c = false →
      handleHeartbeat env true (some c) = (false, [Act.setTimeoutCall c.sandboxId])) ∧
    (env.setTimeoutOk c = true →
      handleHeartbeat env true (some c) = (true, [Act.setTimeoutCall c.sandboxId])) := by
  refine ⟨rfl, rfl, ?_, ?_⟩ <;> intro h <;> simp [handleHeartbeat, h]

/-- Witness for `heartbeat_owner_gated` at concrete inputs. -/
theorem heartbeat_owner_gated_witness :
    handleHeartbeat envDemo false (some ⟨"sb-new"⟩) = (true, []) ∧
    handleHeartbeat envDemo true (some ⟨"sb-new"⟩) =
      (false, [Act.setTimeoutCall "sb-new"]) ∧
    handleHeartbeat envOk true (some ⟨"sb-new"⟩) =
      (true, [Act.setTimeoutCall "sb-new"]) :=
  ⟨(heartbeat_owner_gated envDemo ⟨"sb-new"⟩).1,
   (heartbeat_owner_gated envDemo ⟨"sb-new"⟩).2.2.1 rfl,
   (heartbeat_owner_gated envOk ⟨"sb-new"⟩).2.2.2 rfl⟩

/-- C2, counterexample: with a last-known id and a `connect` that throws,
`initialize()` propagates the connect failure to the caller and makes no
creation call - the failure is not tolerated, even though creation would
have succeeded. -/
theorem connect_failure_fatal_counterexample :
    (initializeProject envConnectFail sStale).error = some "sandbox was not found" ∧
    countCreates (initializeProject envConnectFail sStale).trace = 0 ∧
    (initializeProject envConnectFail sStale).state = sStale ∧
    envConnectFail.create (templateFor sStale.type) = Except.ok ⟨"sb-fresh"⟩ := by
  refine ⟨by decide, by decide, by decide, rfl⟩

/-- C2, amended: when a last-known sandbox id exists and `connect(id)`
throws, the failure is NOT caught - `initialize()` propagates it to the
caller, leaves the session state unchanged and creates nothing. -/
theorem connect_failure_propagates (env : Env) (s : ProjectState) (cid e : String)
    (hid : s.containerId = some cid) (hconn : env.connect cid = Except.error e) :
    initializeProject env s =
      ⟨s, [Act.connectCall cid], some e⟩ := by
  simp [initializeProject, criticalSection, connectPhase, hid, hconn]

/-- Witness for `connect_failure_propagates` at concrete inputs. -/
theorem connect_failure_propagates_witness :
    initializeProject envConnectFail sStale =
      ⟨sStale, [Act.connectCall "sb-stale"], some "sandbox was not found"⟩ :=
  connect_failure_propagates envConnectFail sStale "sb-stale"
    "sandbox was not found" rfl rfl

/-- C4, counterexample: starting with no last-known id, an environment
whose `create` returns a handle that does not report running produces a run
in which neither connect-then-validate (no connect was attempted) nor
create produced a running handle, yet `initialize()` succeeds: it reports
no error, records the dead handle's id, and constructs the terminal
multiplexer - it does not fail with a provisioning error. -/
theorem provisioning_no_error_counterexample :
    envDeadCreate.isRunning ⟨"sb-dead"⟩ = false ∧
    (initializeProject envDeadCreate sFresh).trace =
      [Act.createCall "base", Act.dbWrite "proj-2" "sb-dead"] ∧
    hasRunningContainer envDeadCreate (initializeProject envDeadCreate sFresh).state = false ∧
    (initializeProject envDeadCreate sFresh).error = none ∧
    (initializeProject envDeadCreate sFresh).state.terminalManager ≠ none := by
  refine ⟨rfl, by decide, by decide, by decide, by decide⟩

/-- C4, amended: whenever the critical section of `initialize()` throws
(`connect` throws, or `create` throws after the connect phase produced no
running handle), the failure propagates to the `initialize()` caller with
the thrown error, and neither the terminal multiplexer nor the file adapter
is constructed - they are exactly as before the call. (The code does not
re-validate a handle returned by `create`: a created-but-not-running handle
makes `initialize()` succeed, and a handle connected before a failed
`create` stays referenced.) -/
theorem critical_section_failure_propagates (env : Env) (s : ProjectState) (e : String)
    (herr : (criticalSection env s).error = some e) :
    (initializeProject env s).error = some e ∧
    (initializeProject env s).state.terminalManager = s.terminalManager ∧
    (initializeProject env s).state.fileManager = s.fileManager ∧
    (initializeProject env s).state = (criticalSection env s).state ∧
    (initializeProject env s).trace = (criticalSection env s).trace := by
  obtain ⟨h1, h2⟩ := criticalSection_managers env s
  simp [initializeProject, herr, h1, h2]

/-- Witness for `critical_section_failure_propagates` at concrete inputs. -/
theorem critical_section_failure_propagates_witness :
    (initializeProject envConnectFail sStale).error = some "sandbox was not found" ∧
    (initializeProject envConnectFail sStale).state.terminalManager = sStale.terminalManager ∧
    (initializeProject envConnectFail sStale).state.fileManager = sStale.fileManager ∧
    (initializeProject envConnectFail sStale).state = (criticalSection envConnectFail sStale).state ∧
    (initializeProject envConnectFail sStale).trace = (criticalSection envConnectFail sStale).trace :=
  critical_section_failure_propagates envConnectFail sStale "sandbox was not found" rfl

/-- C8, counterexample: in the Pty-based server, a terminal created under
logical id "A" (`terminals["A"] = new Pty(socket, "A")`) emits its output
chunks as `terminalResponse` events whose payload carries no id field at
all, so the chunk is not tagged with id "A". -/
theorem pty_output_untagged_counterexample :
    (Pty.send (Pty.new "A") "hello").idTag = none ∧
    Pty.send (Pty.new "A") "hello" ≠
      SockEvent.terminalResponse (some "A") "hello" := by
  exact ⟨rfl, by decide⟩

/-- C8, amended: the callback that the Project session's `createTerminal`
handler binds to a terminal with logical id `L` tags every
`terminalResponse` event it emits with exactly `L` (never another id); the
Pty-based server's `send`, in contrast, emits `terminalResponse` events
with no id tag at all (its constructor discards the id), so its chunks are
untagged rather than tagged with the creating id. -/
theorem terminal_output_tagged (env : Env) (cont : Option Container)
    (id resp data : String) (p : Pty) :
    ((terminalCallback env cont id resp).all fun ev =>
        match ev with
        | SockEvent.terminalResponse i _ => i == some id
        | SockEvent.previewURL _ => true) = true ∧
    (Pty.send p data).idTag = none := by
  refine ⟨?_, rfl⟩
  unfold terminalCallback
  cases extractPortNumber resp with
  | none => simp
  | some port =>
    by_cases h : port = 0 <;> simp [h]

/-- C7: `sendTerminalData` and `closeTerminal` addressed to an unregistered
logical id, `resizeTerminal` with no active terminal, and any of the three
with the multiplexer absent, do not throw, leave every existing terminal
session (the whole registry) untouched, and perform no process action; the
Pty-based server's `terminalData` handler likewise returns without writing
when the id is unknown. -/
theorem terminal_ops_unknown_noop
    (tm : TerminalManager) (terms : List (String × Nat))
    (id data : String) (cols rows : Nat)
    (hid : ∀ e ∈ tm.terminals, e.1 ≠ id)
    (hterms : ∀ e ∈ terms, e.1 ≠ id) :
    tm.sendTerminalData id data = (tm, []) ∧
    tm.closeTerminal id = (tm, []) ∧
    (tm.terminals = [] → tm.resizeTerminal cols rows = (tm, [])) ∧
    handleTerminalData none id data = (none, []) ∧
    handleResizeTerminal none cols rows = (none, []) ∧
    handleCloseTerminal none id = (none, []) ∧
    indexTerminalData terms id data = [] := by
  have hfind : tm.terminals.find? (fun e => e.1 = id) = none := by
    rw [List.find?_eq_none]
    intro x hx
    simp [hid x hx]
  have hfind2 : terms.find? (fun e => e.1 = id) = none := by
    rw [List.find?_eq_none]
    intro x hx
    simp [hterms x hx]
  refine ⟨?_, ?_, ?_, rfl, rfl, rfl, ?_⟩
  · simp [TerminalManager.sendTerminalData, hfind]
  · simp [TerminalManager.closeTerminal, hfind]
  · intro h
    simp [TerminalManager.resizeTerminal, h]
  · simp [indexTerminalData, hfind2]

/-- Witness for `terminal_ops_unknown_noop` at concrete inputs. -/
theorem terminal_ops_unknown_noop_witness :
    (tmDemo.sendTerminalData "ghost" "ls" = (tmDemo, []) ∧
     tmDemo.closeTerminal "ghost" = (tmDemo, []) ∧
     (tmDemo.terminals = [] → tmDemo.resizeTerminal 80 24 = (tmDemo, [])) ∧
     handleTerminalData none "ghost" "ls" = (none, []) ∧
     handleResizeTerminal none 80 24 = (none, []) ∧
     handleCloseTerminal none "ghost" = (none, []) ∧
     indexTerminalData [("t1", 1)] "ghost" "ls" = []) ∧
    tmEmpty.resizeTerminal 80 24 = (tmEmpty, []) :=
  ⟨terminal_ops_unknown_noop tmDemo [("t1", 1)] "ghost" "ls" 80 24
      (by decide) (by decide),
   (terminal_ops_unknown_noop tmEmpty [] "ghost" "ls" 80 24
      (by decide) (by decide)).2.2.1 rfl⟩

/-- C9: `disconnect()` bulk-closes every session registered in the terminal
multiplexer, nulls the multiplexer reference, stops file watching and nulls
the file-adapter reference, while leaving the sandbox handle, the
last-known sandbox id, the project id and the type unchanged. -/
theorem disconnect_frame (s : ProjectState) (tm : TerminalManager)
    (htm : s.terminalManager = some tm) :
    (disconnect s).1.terminalManager = none ∧
    (disconnect s).1.fileManager = none ∧
    (disconnect s).1.container = s.container ∧
    (disconnect s).1.containerId = s.containerId ∧
    (disconnect s).1.projectId = s.projectId ∧
    (disconnect s).1.type = s.type ∧
    (∀ e ∈ tm.terminals, Act.closeProc e.2 ∈ (disconnect s).2) ∧
    (disconnect s).2 = (tm.closeAllTerminals).2 ++
      (match s.fileManager with
       | some _ => [Act.stopWatching]
       | none => []) := by
  refine ⟨rfl, rfl, rfl, rfl, rfl, rfl, ?_, ?_⟩
  · intro e he
    have hd : (disconnect s).2 =
        tm.terminals.map (fun x => Act.closeProc x.2) ++
          (match s.fileManager with
           | some _ => [Act.stopWatching]
           | none => []) := by
      simp [disconnect, htm, TerminalManager.closeAllTerminals]
    rw [hd]
    exact List.mem_append_left _ (List.mem_map_of_mem _ he)
  · simp [disconnect, htm]

/-- Witness for `disconnect_frame` at concrete inputs. -/
theorem disconnect_frame_witness :
    (disconnect sConnected).1.terminalManager = none ∧
    (disconnect sConnected).1.fileManager = none ∧
    (disconnect sConnected).1.container = sConnected.container ∧
    (disconnect sConnected).1.containerId = sConnected.containerId ∧
    (disconnect sConnected).1.projectId = sConnected.projectId ∧
    (disconnect sConnected).1.type = sConnected.type ∧
    (∀ e ∈ tmDemo.terminals, Act.closeProc e.2 ∈ (disconnect sConnected).2) ∧
    (disconnect sConnected).2 = (tmDemo.closeAllTerminals).2 ++
      (match sConnected.fileManager with
       | some _ => [Act.stopWatching]
       | none => []) :=
  disconnect_frame sConnected tmDemo rfl

/-- C3: in any `initialize()` run whose connect phase did not throw and
left no running handle (no handle at all, or one that reports not-running),
and whose creation call succeeds with handle `c`, the run succeeds, the new
handle and its id are recorded (the stale id is overwritten), the trace is
the connect phase's trace followed by exactly the creation call and then
the persistent-store write of the new id - one creation, one write, the
write after the creation - and the template is the one selected by the
project type: each tag in the fixed set maps to its `gitwit-` template, any
other tag to `base`. -/
theorem initialize_reconciliation (env : Env) (s : ProjectState) (c : Container)
    (hok : (connectPhase env s).error = none)
    (hnr : hasRunningContainer env (connectPhase env s).state = false)
    (hcreate : env.create (templateFor s.type) = Except.ok c) :
    (initializeProject env s).error = none ∧
    (initializeProject env s).state.containerId = some c.sandboxId ∧
    (initializeProject env s).state.container = some c ∧
    (initializeProject env s).trace =
      (connectPhase env s).trace ++
        [Act.createCall (templateFor s.type), Act.dbWrite s.projectId c.sandboxId] ∧
    dbWrites (initializeProject env s).trace = [Act.dbWrite s.projectId c.sandboxId] ∧
    countCreates (initializeProject env s).trace = 1 ∧
    (∀ t, t ∈ ["vanillajs", "reactjs", "nextjs", "streamlit", "php"] →
      templateFor t = "gitwit-" ++ t) ∧
    (∀ t, t ∉ ["vanillajs", "reactjs", "nextjs", "streamlit", "php"] →
      templateFor t = "base") := by
  obtain ⟨f1, f2, f3, f4, f5⟩ := connectPhase_fields env s
  have hcreate2 : env.create (templateFor (connectPhase env s).state.type) =
      Except.ok c := by rw [f5]; exact hcreate
  have hcs : criticalSection env s =
      ⟨{ (connectPhase env s).state with
          container := some c, containerId := some c.sandboxId },
        (connectPhase env s).trace ++
          [Act.createCall (templateFor s.type),
           Act.dbWrite s.projectId c.sandboxId], none⟩ := by
    simp [criticalSection, hok, hnr, hcreate, hcreate2, f4, f5]
  obtain ⟨e1, e2, e3, e4, -, -, -, -⟩ :=
    initializeProject_ok_fields env s c (by rw [hcs]) (by rw [hcs])
  have htr : (initializeProject env s).trace =
      (connectPhase env s).trace ++
        [Act.createCall (templateFor s.type), Act.dbWrite s.projectId c.sandboxId] := by
    rw [e2, hcs]
  have htr0 : dbWrites (connectPhase env s).trace = [] ∧
      countCreates (connectPhase env s).trace = 0 := by
    rcases connectPhase_trace env s with h | ⟨cid, -, h⟩ <;>
      simp [h, dbWrites, countCreates]
  refine ⟨e1, ?_, ?_, htr, ?_, ?_, ?_, ?_⟩
  · rw [e4, hcs]
  · rw [e3, hcs]
  · rw [htr, dbWrites_append, htr0.1]
    rfl
  · rw [htr, countCreates_append, htr0.2]
    rfl
  · intro t ht
    simp [templateFor, ht]
  · intro t ht
    simp [templateFor, ht]

/-- A stale session whose last-known id connects to a not-running handle. -/
def sStale2 : ProjectState := ProjectState.mk0 "proj-3" "nextjs" (some "sb-stale")

/-- Witness for `initialize_reconciliation` at concrete inputs. -/
theorem initialize_reconciliation_witness :
    (initializeProject envDemo sStale2).error = none ∧
    (initializeProject envDemo sStale2).state.containerId = some "sb-new" ∧
    dbWrites (initializeProject envDemo sStale2).trace =
      [Act.dbWrite "proj-3" "sb-new"] ∧
    countCreates (initializeProject envDemo sStale2).trace = 1 ∧
    templateFor "nextjs" = "gitwit-nextjs" ∧
    templateFor "python" = "base" :=
  let h := initialize_reconciliation envDemo sStale2 ⟨"sb-new"⟩
    (by decide) (by decide) rfl
  ⟨h.1, h.2.1, h.2.2.2.2.1, h.2.2.2.2.2.1,
   h.2.2.2.2.2.2.1 "nextjs" (by decide), h.2.2.2.2.2.2.2 "python" (by decide)⟩

/-- C1: `n + 1` concurrent `initialize()` calls against one project
session, serialized by the keyed mutex (modelled, per §4.1, as sequential
critical sections on the shared state), make exactly one sandbox-creation
call in total when the session starts with no handle and no last-known id:
the first run creates, every later run reconnects to the newly created id
(a single connect call, no creation), and every run succeeds. -/
theorem initialize_mutual_exclusion (env : Env) (s : ProjectState)
    (c c' : Container) (n : Nat)
    (h0 : s.containerId = none) (h1 : s.container = none)
    (hcreate : env.create (templateFor s.type) = Except.ok c)
    (hconn : env.connect c.sandboxId = Except.ok c')
    (hrun : env.isRunning c' = true) :
    countCreates ((initRuns env s (n + 1)).flatMap Outcome.trace) = 1 ∧
    (∀ o ∈ initRuns env s (n + 1), o.error = none) ∧
    (∀ o ∈ (initRuns env s (n + 1)).tail,
      o.trace = [Act.connectCall c.sandboxId]) := by
  obtain ⟨he, htr, hcid, htm, hfm⟩ := initializeProject_fresh env s c h0 h1 hcreate
  have hlist : initRuns env s (n + 1) =
      initializeProject env s :: initRuns env (initializeProject env s).state n := rfl
  have hsteady := initRuns_steady env c.sandboxId c' hconn hrun n
    (initializeProject env s).state hcid htm hfm
  refine ⟨?_, ?_, ?_⟩
  · rw [hlist]
    simp only [List.flatMap_cons]
    rw [countCreates_append, htr,
      countCreates_bind_zero c.sandboxId _ (fun o ho => (hsteady o ho).2)]
    rfl
  · intro o ho
    rw [hlist] at ho
    rcases List.mem_cons.mp ho with rfl | ho2
    · exact he
    · exact (hsteady o ho2).1
  · intro o ho
    rw [hlist] at ho
    exact (hsteady o ho).2

/-- A fresh session of a known type tag. -/
def sDemo1 : ProjectState := ProjectState.mk0 "proj-5" "reactjs" none

/-- Witness for `initialize_mutual_exclusion` at concrete inputs: three
serialized runs. -/
theorem initialize_mutual_exclusion_witness :
    countCreates ((initRuns envDemo sDemo1 3).flatMap Outcome.trace) = 1 ∧
    (∀ o ∈ initRuns envDemo sDemo1 3, o.error = none) ∧
    (∀ o ∈ (initRuns envDemo sDemo1 3).tail,
      o.trace = [Act.connectCall "sb-new"]) :=
  initialize_mutual_exclusion envDemo sDemo1 ⟨"sb-new"⟩ ⟨"sb-new"⟩ 2
    rfl rfl rfl rfl (by decide)

/-- The spec's demo terminal output line. -/
def demoLine : String := "\x1B[32mServer running at http://localhost:3001/\x1B[0m"

/-- A head match and a position match agree: `matchAt` succeeds exactly
where `localhostAt` holds. -/
theorem matchAt_none_iff (l : List Char) :
    matchAt l = none ↔ localhostAt l = false := by
  unfold matchAt localhostAt
  by_cases hp : litLocalhost.isPrefixOf l
  · by_cases hd : ((l.drop litLocalhost.length).takeWhile Char.isDigit).isEmpty <;>
      simp [hp, hd]
  · simp [hp]

/-- The leftmost-match scanner returns nothing exactly when no position of
the string carries the `http://localhost:<digits>` pattern. -/
theorem findLocalhostPort_none_iff (l : List Char) :
    findLocalhostPort l = none ↔ hasLocalhostURL l = false := by
  induction l with
  | nil =>
    simp only [findLocalhostPort, true_iff]
    decide
  | cons c l ih =>
    cases hm : matchAt (c :: l) with
    | some n =>
      have hat : localhostAt (c :: l) = true := by
        by_contra hfalse
        have := (matchAt_none_iff (c :: l)).mpr (by
          cases h : localhostAt (c :: l) with
          | true => exact absurd h hfalse
          | false => rfl)
        rw [hm] at this
        exact Option.noConfusion this
      simp [findLocalhostPort, hm, hasLocalhostURL, List.tails_cons, hat]
    | none =>
      have hat : localhostAt (c :: l) = false := (matchAt_none_iff (c :: l)).mp hm
      simp only [findLocalhostPort, hm, hasLocalhostURL, List.tails_cons,
        List.any_cons, hat, Bool.false_or]
      exact ih

/-- The position predicate agrees with the plain-language notion of
"contains an `http://localhost:<digits>` substring". -/
theorem hasLocalhostURL_iff (l : List Char) :
    hasLocalhostURL l = true ↔
      ∃ pre ds post, ds ≠ [] ∧ (∀ d ∈ ds, d.isDigit = true) ∧
        l = pre ++ litLocalhost ++ ds ++ post := by
  unfold hasLocalhostURL
  rw [List.any_eq_true]
  constructor
  · rintro ⟨t, ht, hat⟩
    rw [List.mem_tails] at ht
    obtain ⟨pre, hpre⟩ := ht
    unfold localhostAt at hat
    rw [Bool.and_eq_true] at hat
    obtain ⟨hp, hd⟩ := hat
    obtain ⟨rest, hrest⟩ := List.isPrefixOf_iff_prefix.mp hp
    refine ⟨pre, rest.takeWhile Char.isDigit, rest.dropWhile Char.isDigit, ?_, ?_, ?_⟩
    · intro hnil
      rw [← hrest, List.drop_left, hnil] at hd
      simp at hd
    · intro d hdm
      exact List.mem_takeWhile_imp hdm
    · rw [← hpre, ← hrest]
      have hsplit : List.takeWhile Char.isDigit rest ++
          List.dropWhile Char.isDigit rest = rest :=
        List.takeWhile_append_dropWhile Char.isDigit rest
      simp [List.append_assoc, hsplit]
  · rintro ⟨pre, ds, post, hne, hdig, rfl⟩
    refine ⟨litLocalhost ++ ds ++ post, ?_, ?_⟩
    · rw [List.mem_tails]
      exact ⟨pre, by simp [List.append_assoc]⟩
    · unfold localhostAt
      rw [Bool.and_eq_true]
      constructor
      · exact List.isPrefixOf_iff_prefix.mpr ⟨ds ++ post, by simp [List.append_assoc]⟩
      · rw [show litLocalhost ++ ds ++ post = litLocalhost ++ (ds ++ post) by
          simp [List.append_assoc], List.drop_left]
        cases ds with
        | nil => exact absurd rfl hne
        | cons d ds2 =>
          simp [List.takeWhile_cons, hdig d (by simp)]

/-- C5: on the line `"\x1B[32mServer running at http://localhost:3001/\x1B[0m"`
(ANSI escapes stripped first) the extracted port is 3001 and the bound
terminal callback pushes a `previewURL` event whose host comes from the
handle's port-to-host mapping; a malformed port component
(`http://localhost:abc`) extracts nothing; on any input whose
ANSI-stripped text contains no `http://localhost:<digits>` substring
(characterized by the explicit decomposition in the last conjunct),
extraction yields no port and the callback pushes no preview event; and
extraction is a total function, so no input crashes it. -/
theorem preview_url_extraction :
    extractPortNumber demoLine = some 3001 ∧
    (∀ (env : Env) (c : Container),
      terminalCallback env (some c) "term-1" demoLine =
        [SockEvent.terminalResponse (some "term-1") demoLine,
         SockEvent.previewURL ("https://" ++ env.getHost c 3001)]) ∧
    extractPortNumber "Server running at http://localhost:abc/" = none ∧
    (∀ s : String, hasLocalhostURL (stripAnsi s.toList) = false →
      extractPortNumber s = none ∧
      ∀ (env : Env) (cont : Option Container) (id : String),
        previewEvents (terminalCallback env cont id s) = []) ∧
    (∀ l : List Char, hasLocalhostURL l = true ↔
      ∃ pre ds post, ds ≠ [] ∧ (∀ d ∈ ds, d.isDigit = true) ∧
        l = pre ++ litLocalhost ++ ds ++ post) := by
  have hdemo : extractPortNumber demoLine = some 3001 := by decide
  refine ⟨hdemo, ?_, by decide, ?_, hasLocalhostURL_iff⟩
  · intro env c
    simp [terminalCallback, hdemo, hostOf]
  · intro s hs
    have hnone : extractPortNumber s = none :=
      (findLocalhostPort_none_iff (stripAnsi s.toList)).mpr hs
    refine ⟨hnone, ?_⟩
    intro env cont id
    simp [terminalCallback, hnone, previewEvents]

/-- Witness for `preview_url_extraction` at concrete inputs. -/
theorem preview_url_extraction_witness :
    extractPortNumber demoLine = some 3001 ∧
    extractPortNumber "plain output with no url" = none ∧
    previewEvents
      (terminalCallback envDemo (some ⟨"sb-new"⟩) "t1" "plain output with no url") = [] :=
  ⟨preview_url_extraction.1,
   (preview_url_extraction.2.2.2.1 "plain output with no url" (by decide)).1,
   (preview_url_extraction.2.2.2.1 "plain output with no url" (by decide)).2
     envDemo (some ⟨"sb-new"⟩) "t1"⟩

end Sandbox
